import Mathlib

/-!
Verification of the crates.io front-end decision logic: the invitation
response component, the crates-listing route, the crate-version resolver
route, the team/keyword route error handling, and the ownership mutator.

Each JavaScript function is shallowly embedded as a pure Lean function;
asynchronous requests are represented by an explicit outcome argument
(success, or a structured error payload), and Ember `set` mutations by
returning the updated record.
-/

namespace CratesIO

/-- Structured API error entry: the backend reports failures as an
`errors` array of objects each carrying a `detail` string. -/
structure ApiError where
  detail : String
deriving Repr, DecidableEq

/-! ## Invitation response component

Embeds the `acceptInvitation` / `declineInvitation` actions of the
crate-owner-invite component. The component first writes the `accepted`
field on the invite record, then awaits `invite.save()`; the save outcome
is passed in explicitly. The returned `Bool` records whether a TypeError
escapes the catch block (this happens exactly when the caught error has
an `errors` field that is an empty array: `error.errors` is truthy in
JavaScript, but `error.errors[0].detail` then dereferences `undefined`).
-/

/-- The invite record; `accepted` is tri-state (pending / true / false). -/
structure Invitation where
  accepted : Option Bool
deriving Repr, DecidableEq

/-- Local component display state, with the source's initial defaults. -/
structure ComponentState where
  isAccepted : Bool := false
  isDeclined : Bool := false
  isError : Bool := false
  inviteError : String := "default error message"
deriving Repr, DecidableEq

/-- Outcome of `invite.save()`: resolved, or rejected with an error whose
`errors` field may be absent (`none`) or a (possibly empty) array. -/
inductive SaveOutcome where
  | ok
  | err (errors : Option (List ApiError))
deriving Repr, DecidableEq

/-- The `acceptInvitation` action: sets `accepted` to `true`, saves, and
on failure sets `isError` and an error message. Returns the updated
invite, the updated component state, and whether a TypeError escaped. -/
def acceptInvitation (invite : Invitation) (comp : ComponentState)
    (outcome : SaveOutcome) : Invitation × ComponentState × Bool :=
  let invite := { invite with accepted := some true }
  match outcome with
  | .ok => (invite, { comp with isAccepted := true }, false)
  | .err errs =>
    let comp := { comp with isError := true }
    match errs with
    | some (e :: _) =>
      (invite, { comp with inviteError := "Error in accepting invite: " ++ e.detail }, false)
    | some [] => (invite, comp, true)
    | none => (invite, { comp with inviteError := "Error in accepting invite" }, false)

/-- The `declineInvitation` action: sets `accepted` to `false`, saves, and
on failure sets `isError` and an error message. -/
def declineInvitation (invite : Invitation) (comp : ComponentState)
    (outcome : SaveOutcome) : Invitation × ComponentState × Bool :=
  let invite := { invite with accepted := some false }
  match outcome with
  | .ok => (invite, { comp with isDeclined := true }, false)
  | .err errs =>
    let comp := { comp with isError := true }
    match errs with
    | some (e :: _) =>
      (invite, { comp with inviteError := "Error in declining invite: " ++ e.detail }, false)
    | some [] => (invite, comp, true)
    | none => (invite, { comp with inviteError := "Error in declining invite" }, false)

/-! ## Crates-listing route -/

/-- Query parameters of the crates-listing route; `none` models an absent
or null parameter. -/
structure CratesParams where
  letter : Option String
  page : Option String
  sort : Option String
deriving Repr, DecidableEq

/-- JavaScript truthiness of an optional string: absent, null and the
empty string are falsy. -/
def optStrTruthy : Option String → Bool
  | some s => s != ""
  | none => false

/-- The crates-listing route `model` hook: deletes the `letter` key when
it is falsy (empty or null), then passes the params to the store query. -/
def cratesModel (params : CratesParams) : CratesParams :=
  if optStrTruthy params.letter then params else { params with letter := none }

/-! ## Crate-version resolver route

Embeds the version route `model` hook. The hook normalises the requested
version (`all` becomes the empty request), mutates `params.version_num`
through the stable-version fallback when no version was requested, then
looks the final value up in the crate's version collection, queueing a
flash warning when a non-empty request matches nothing.

The fallback block can (in a branch that turns out to be dead) assign a
whole version object, rather than a version-number string, to
`params.version_num`; the JavaScript value held by that field is
therefore embedded as `JsVal`, with JavaScript truthiness and strict
equality against a version's `num`. -/

/-- A version record: semver string `num`, `yanked` flag, and an optional
`readme_path`. -/
structure Version where
  num : String
  yanked : Bool
  readme_path : Option String := none
deriving Repr, DecidableEq

/-- The dynamically-typed value stored in `params.version_num`: a string,
a version object, or `undefined`. -/
inductive JsVal where
  | str (s : String)
  | obj (v : Version)
  | undef
deriving Repr, DecidableEq

/-- JavaScript truthiness of a `JsVal`: objects are truthy, the empty
string and `undefined` are falsy. -/
def JsVal.truthy : JsVal → Bool
  | .str s => s != ""
  | .obj _ => true
  | .undef => false

/-- JavaScript strict equality `version.get(num) === params.version_num`:
true only when the right-hand side is an equal string. -/
def versionNumEq (v : Version) : JsVal → Bool
  | .str s => v.num == s
  | .obj _ => false
  | .undef => false

/-- The value of `params.version_num` after the fallback block of the
version route. When nothing was requested and `maxVersion` is not the
`0.0.0` sentinel, an unstable `maxVersion` triggers the scan for the
first stable non-yanked version; the source then re-tests
`latestStableVersion == null` — not `latestUnyankedVersion == null` —
so in the inner branch (where `latestStableVersion` is null) it always
assigns `maxVersion`, and the assignment of `latestUnyankedVersion`
below it is unreachable. -/
def fallbackVersionNum (isUnstable : String → Bool) (maxVersion : String)
    (versions : List Version) (version_num : String) : JsVal :=
  let requestedVersion := if version_num == "all" then "" else version_num
  if requestedVersion == "" && maxVersion != "0.0.0" then
    if isUnstable maxVersion then
      let latestStableVersion := versions.find? fun v => !isUnstable v.num && !v.yanked
      match latestStableVersion with
      | some latest => .str latest.num
      | none =>
        let latestUnyankedVersion := versions.find? fun v => !v.yanked
        if latestStableVersion = none then .str maxVersion
        else
          match latestUnyankedVersion with
          | some v => .obj v
          | none => .undef
    else .str maxVersion
  else .str version_num

/-- The outcome of the version route `model` hook: the mutated
`params.version_num`, the normalised requested version, whether the
`does not exist` flash warning was queued, and the selected version
record (`none` only when the collection is empty). -/
structure ResolveOutcome where
  params_version_num : JsVal
  requestedVersion : String
  warned : Bool
  result : Option Version
deriving Repr, DecidableEq

/-- The version route `model` hook: applies the fallback, finds the
version matching `params.version_num`, queues the warning when a truthy
request matched nothing, and selects the match, else the version
matching `maxVersion`, else the first version in collection order. -/
def resolveModel (isUnstable : String → Bool) (maxVersion : String)
    (versions : List Version) (version_num : String) : ResolveOutcome :=
  let requestedVersion := if version_num == "all" then "" else version_num
  let pv := fallbackVersionNum isUnstable maxVersion versions version_num
  let version := versions.find? fun v => versionNumEq v pv
  { params_version_num := pv
    requestedVersion := requestedVersion
    warned := pv.truthy && version.isNone
    result :=
      match version with
      | some v => some v
      | none =>
        match versions.find? fun v => v.num == maxVersion with
        | some v => some v
        | none => versions.head? }

/-- Stand-in for the semver prerelease test of the external `semver`
package: a version string is a pre-release iff it contains a hyphen.
This agrees with `prerelease(v) != null` on every valid semver string
without build metadata, in particular on all strings used in the
concrete theorems below. -/
def demoUnstable (s : String) : Bool := s.data.contains '-'

/-- First version of the concrete all-prerelease crate: a non-yanked
pre-release that comes first in collection order. -/
def alphaVersion : Version := { num := "1.0.0-alpha", yanked := false }

/-- Second version of the concrete all-prerelease crate: the non-yanked
pre-release matching the crate's `max_version`. -/
def betaVersion : Version := { num := "1.0.0-beta", yanked := false }

/-! ## README side effect of the version resolver -/

/-- Outcome of the `fetch(readme_path)` request: a successful response
carrying the body text, a non-success HTTP status, or a network error
(a rejected promise). -/
inductive FetchOutcome where
  | success (text : String)
  | httpError
  | networkError
deriving Repr, DecidableEq

/-- The value written to `crate.readme` by the fetch handler chain: the
body text when the response is ok, the explicit null marker on a
non-success status, and — via the `catch` that swallows the rejection so
it never surfaces as a resolver error — the null marker on a network
error as well. -/
def readmeFetchHandler : FetchOutcome → Option String
  | .success text => some text
  | .httpError => none
  | .networkError => none

/-- The README side effect of the resolver: when the selected version
exposes a truthy `readme_path` the crate's `readme` is assigned
(`some` assignment), else the field is left untouched (`none`). -/
def readmeEffect (result : Version) (outcome : FetchOutcome) : Option (Option String) :=
  if optStrTruthy result.readme_path then some (readmeFetchHandler outcome) else none

/-! ## Team and keyword route error handling -/

/-- An error caught by a route `model` hook; its `errors` field may be
absent (`none`) or an array of structured entries. -/
structure EmberError where
  errors : Option (List ApiError)
deriving Repr, DecidableEq

/-- What a route's catch block does with a caught error. -/
inductive RouteAction where
  | notifyAndRedirect (message : String)
  | rethrow
  | typeError
  | swallowed
deriving Repr, DecidableEq

/-- The catch block of the team route `model` hook: it evaluates
`e.errors.some(...)` — a TypeError when the error has no `errors` array —
and on a `Not Found` detail notifies and redirects to the index route.
Any other structured error falls off the end of the catch block, so the
hook returns `undefined`: the error is swallowed, not re-thrown. -/
def teamModelCatch (team_id : String) (e : EmberError) : RouteAction :=
  match e.errors with
  | none => .typeError
  | some errs =>
    if errs.any fun x => x.detail == "Not Found" then
      .notifyAndRedirect ("Team '" ++ team_id ++ "' does not exist")
    else .swallowed

/-- The catch block of the keyword route `model` hook: a
`NotFoundError` (the flag abstracts the `instanceof` test) notifies and
redirects; every other error is re-thrown. -/
def keywordModelCatch (keyword_id : String) (isNotFoundError : Bool) : RouteAction :=
  if isNotFoundError then
    .notifyAndRedirect ("Keyword '" ++ keyword_id ++ "' does not exist")
  else .rethrow

/-! ## Ownership mutator

The settings controller that implements `addOwner` / `removeOwner` is
not part of the sources here; only its acceptance tests are. The two
operations are therefore modelled from the spec and checked against the
scenarios of those tests. -/

/-- Crate owner, polymorphic over the user and team variants. -/
inductive Owner where
  | user (login : String)
  | team (org : String) (name : String)
deriving Repr, DecidableEq

/-- Variant-specific label used in the removal failure message, as in
the acceptance tests: `user <login>` or `team <org>/<name>`. -/
def ownerFailureLabel : Owner → String
  | .user login => "user " ++ login
  | .team org name => "team " ++ org ++ "/" ++ name

/-- Variant-specific removal success message, as in the acceptance
tests. -/
def ownerRemovedMessage : Owner → String
  | .user login => "User " ++ login ++ " removed as crate owner"
  | .team org name => "Team " ++ org ++ "/" ++ name ++ " removed as crate owner"

/-- Outcome of the delete request: success, or a failure carrying the
first structured error detail (this covers the transport-success-but-
payload-error responses the backend may return, as in the acceptance
tests where HTTP 200 carries `errors: [detail: nope]`). -/
inductive RemoveOutcome where
  | ok
  | err (firstDetail : String)
deriving Repr, DecidableEq

/-- Modelled from the spec: the `removeOwner` operation of the settings
controller (the controller itself is not under the sources, only its
acceptance tests). It sends a delete request scoped to the owner's
variant; on success it removes the owner from the local list and shows
the variant-specific success message; on failure it keeps the local
list unchanged and shows the variant-specific failure message embedding
the first error detail. -/
def removeOwner (owners : List Owner) (target : Owner) (outcome : RemoveOutcome) :
    List Owner × String :=
  match outcome with
  | .ok => (owners.filter (fun o => o ≠ target), ownerRemovedMessage target)
  | .err d =>
    (owners, "Failed to remove the " ++ ownerFailureLabel target ++
      " as crate owner: " ++ d)

/-- Outcome of the invite request: success, or a failure whose `errors`
array may be absent. -/
inductive AddOutcome where
  | ok
  | err (errors : Option (List ApiError))
deriving Repr, DecidableEq

/-- Modelled from the spec: the `addOwner` operation of the settings
controller (the controller itself is not under the sources, only its
acceptance tests). It sends an invite request; on success it shows
`An invite has been sent to <name>` and does not modify the local owner
list (the invite is pending until accepted); on failure it embeds the
first structured error detail, else a generic message. -/
def addOwner (owners : List Owner) (name : String) (outcome : AddOutcome) :
    List Owner × String :=
  match outcome with
  | .ok => (owners, "An invite has been sent to " ++ name)
  | .err (some (e :: _)) => (owners, "Error sending invite: " ++ e.detail)
  | .err _ => (owners, "Error sending invite")

/-- The four owners of the `nanomsg` crate in the acceptance-test
fixture, in creation order. -/
def nanomsgOwners : List Owner :=
  [.user "blabaere", .user "thehydroimpulse",
   .team "org" "blabaere", .team "org" "thehydroimpulse"]

end CratesIO

namespace CratesIO

/-- C4: the claim states that after a failed `respondToInvitation` the
invitation's `accepted` field holds the same value it had before the
call. This is false: accepting an invitation whose `accepted` field is
pending (`none`) with a failing save leaves `accepted` set to `true`,
because the component writes the field before saving and never rolls it
back. -/
theorem accept_failure_mutates_accepted :
    (acceptInvitation ⟨none⟩ {} (.err (some [⟨"nope"⟩]))).1.accepted ≠
      (⟨none⟩ : Invitation).accepted := by
  decide

/-- C4 (amended): on a failed save the invitation's `accepted` field
retains the value written by the attempted action (`true` for accept,
`false` for decline) — the optimistic write is not rolled back; the
component transitions to `isError`, and the error message embeds the
first structured error detail when one is present, else the generic
default. -/
theorem respond_failure_state (invite : Invitation) (comp : ComponentState)
    (errs : Option (List ApiError)) :
    (acceptInvitation invite comp (.err errs)).1.accepted = some true ∧
    (acceptInvitation invite comp (.err errs)).2.1.isError = true ∧
    (∀ e rest, errs = some (e :: rest) →
      (acceptInvitation invite comp (.err errs)).2.1.inviteError =
        "Error in accepting invite: " ++ e.detail) ∧
    (errs = none →
      (acceptInvitation invite comp (.err errs)).2.1.inviteError =
        "Error in accepting invite") ∧
    (declineInvitation invite comp (.err errs)).1.accepted = some false ∧
    (declineInvitation invite comp (.err errs)).2.1.isError = true ∧
    (∀ e rest, errs = some (e :: rest) →
      (declineInvitation invite comp (.err errs)).2.1.inviteError =
        "Error in declining invite: " ++ e.detail) ∧
    (errs = none →
      (declineInvitation invite comp (.err errs)).2.1.inviteError =
        "Error in declining invite") := by
  rcases errs with _ | ⟨_ | ⟨e, rest⟩⟩ <;>
    simp [acceptInvitation, declineInvitation]

/-- C4 (amended) witness at the concrete failing save with detail
`nope`. -/
theorem respond_failure_state_witness :
    (acceptInvitation ⟨none⟩ {} (.err (some [⟨"nope"⟩]))).2.1.inviteError =
      "Error in accepting invite: nope" :=
  (respond_failure_state ⟨none⟩ {} (some [⟨"nope"⟩])).2.2.1 ⟨"nope"⟩ [] rfl

/-- C9: the component flags are monotone — neither action ever resets
`isAccepted`, `isDeclined` or `isError` from `true` to `false` — and
consequently after a failed accept followed by a successful retry both
`isError` and `isAccepted` are simultaneously true, so the display
states are not mutually exclusive. -/
theorem invite_flags_monotone :
    (∀ (invite : Invitation) (comp : ComponentState) (outcome : SaveOutcome),
      comp.isAccepted ≤ (acceptInvitation invite comp outcome).2.1.isAccepted ∧
      comp.isDeclined ≤ (acceptInvitation invite comp outcome).2.1.isDeclined ∧
      comp.isError ≤ (acceptInvitation invite comp outcome).2.1.isError ∧
      comp.isAccepted ≤ (declineInvitation invite comp outcome).2.1.isAccepted ∧
      comp.isDeclined ≤ (declineInvitation invite comp outcome).2.1.isDeclined ∧
      comp.isError ≤ (declineInvitation invite comp outcome).2.1.isError) ∧
    ((acceptInvitation
        (acceptInvitation ⟨none⟩ {} (.err none)).1
        (acceptInvitation ⟨none⟩ {} (.err none)).2.1
        .ok).2.1.isError = true ∧
     (acceptInvitation
        (acceptInvitation ⟨none⟩ {} (.err none)).1
        (acceptInvitation ⟨none⟩ {} (.err none)).2.1
        .ok).2.1.isAccepted = true) := by
  constructor
  · intro invite comp outcome
    rcases outcome with _ | ⟨_ | ⟨_ | ⟨e, rest⟩⟩⟩ <;>
      simp [acceptInvitation, declineInvitation]
  · decide

/-- C10: the crates-listing route model sends a query without a `letter`
key whenever `params.letter` is empty or null, passes a non-empty
`letter` through unchanged, and never modifies `page` or `sort`. -/
theorem crates_model_query (params : CratesParams) :
    ((params.letter = none ∨ params.letter = some "") →
      (cratesModel params).letter = none) ∧
    (∀ s, s ≠ "" → params.letter = some s → (cratesModel params).letter = some s) ∧
    (cratesModel params).page = params.page ∧
    (cratesModel params).sort = params.sort := by
  refine ⟨?_, ?_, ?_, ?_⟩
  · rintro (h | h) <;> simp [cratesModel, optStrTruthy, h]
  · intro s hs h
    simp [cratesModel, optStrTruthy, h, hs]
  · unfold cratesModel
    split <;> rfl
  · unfold cratesModel
    split <;> rfl

/-- C10 witness: an empty `letter` is dropped from the query. -/
theorem crates_model_query_witness :
    (cratesModel ⟨some "", some "2", some "alpha"⟩).letter = none :=
  (crates_model_query ⟨some "", some "2", some "alpha"⟩).1 (Or.inr rfl)

/-- C1: when `maxVersion` is unstable and a stable non-yanked version
exists, resolving with an empty (or `all`) request selects a stable,
non-yanked version. The hypotheses state that the unstable predicate
rejects the `0.0.0` sentinel (true of semver prerelease) and that the
crate's version numbers are distinct (the backend enforces uniqueness
of version numbers within a crate). -/
theorem resolve_prefers_stable (isUnstable : String → Bool) (maxVersion : String)
    (versions : List Version) (version_num : String)
    (hreq : version_num = "" ∨ version_num = "all")
    (hmax : isUnstable maxVersion = true)
    (hzero : isUnstable "0.0.0" = false)
    (hnodup : (versions.map Version.num).Nodup)
    (hstable : ∃ v ∈ versions, isUnstable v.num = false ∧ v.yanked = false) :
    ∃ v, (resolveModel isUnstable maxVersion versions version_num).result = some v ∧
      isUnstable v.num = false ∧ v.yanked = false := by
  have hne : maxVersion ≠ "0.0.0" := by
    intro h
    rw [h, hzero] at hmax
    exact Bool.false_ne_true hmax
  have hsome : (versions.find? fun v => !isUnstable v.num && !v.yanked).isSome := by
    rw [List.find?_isSome]
    obtain ⟨v, hv, h1, h2⟩ := hstable
    exact ⟨v, hv, by simp [h1, h2]⟩
  obtain ⟨ls, hls⟩ := Option.isSome_iff_exists.mp hsome
  have hpls := List.find?_some hls
  simp only [Bool.and_eq_true, Bool.not_eq_true'] at hpls
  have hmem := List.mem_of_find?_eq_some hls
  have hfb : fallbackVersionNum isUnstable maxVersion versions version_num = .str ls.num := by
    unfold fallbackVersionNum
    rcases hreq with h | h <;> simp [h, hne, hmax, hls]
  have hsome2 : (versions.find? fun v => versionNumEq v (.str ls.num)).isSome := by
    rw [List.find?_isSome]
    exact ⟨ls, hmem, by simp [versionNumEq]⟩
  obtain ⟨v2, hv2⟩ := Option.isSome_iff_exists.mp hsome2
  have hv2p := List.find?_some hv2
  simp only [versionNumEq, beq_iff_eq] at hv2p
  have hv2mem := List.mem_of_find?_eq_some hv2
  have hv2eq : v2 = ls := List.inj_on_of_nodup_map hnodup hv2mem hmem hv2p
  refine ⟨ls, ?_, hpls.1, hpls.2⟩
  unfold resolveModel
  simp only [hfb, hv2, hv2eq]

/-- C1 witness: a crate with unstable `max_version` `1.1.0-beta.1` and a
stable non-yanked version `1.0.0` resolves the empty request to a
stable, non-yanked version. -/
theorem resolve_prefers_stable_witness :
    ∃ v, (resolveModel demoUnstable "1.1.0-beta.1"
        [{ num := "1.0.0", yanked := false }] "").result = some v ∧
      demoUnstable v.num = false ∧ v.yanked = false :=
  resolve_prefers_stable demoUnstable "1.1.0-beta.1"
    [{ num := "1.0.0", yanked := false }] ""
    (Or.inl rfl) (by decide) (by decide) (by decide)
    ⟨{ num := "1.0.0", yanked := false }, by decide, by decide, by decide⟩

/-- C2: the claim says that with an unstable `maxVersion`, no stable
non-yanked version, and a non-yanked version present, the empty request
selects the first non-yanked version. The code instead selects the
version matching `maxVersion`: on the all-prerelease crate with
collection order `[1.0.0-alpha, 1.0.0-beta]` and `max_version`
`1.0.0-beta`, the first non-yanked version is `1.0.0-alpha`, yet the
resolver returns `1.0.0-beta`, because the inner null test re-checks
`latestStableVersion` (always null there) instead of
`latestUnyankedVersion`, making the intended branch dead code and
contradicting the adjacent source comment. -/
theorem resolve_unstable_fallback_bug :
    (resolveModel demoUnstable "1.0.0-beta" [alphaVersion, betaVersion] "").result =
      some betaVersion ∧
    ([alphaVersion, betaVersion].find? fun v => !v.yanked) = some alphaVersion ∧
    betaVersion ≠ alphaVersion := by
  refine ⟨?_, rfl, by decide⟩
  rfl

/-- C3: a non-empty request (other than `all`) matching no version in
the collection queues the flash warning and still selects a version:
the one matching `maxVersion` when present, else the first version in
collection order. The collection is assumed non-empty (every crate has
at least one published version). -/
theorem resolve_missing_version_warns (isUnstable : String → Bool) (maxVersion : String)
    (versions : List Version) (version_num : String)
    (hne : version_num ≠ "") (hnall : version_num ≠ "all")
    (hnomatch : ∀ v ∈ versions, v.num ≠ version_num)
    (hnonempty : versions ≠ []) :
    (resolveModel isUnstable maxVersion versions version_num).warned = true ∧
    (resolveModel isUnstable maxVersion versions version_num).result.isSome = true ∧
    ((resolveModel isUnstable maxVersion versions version_num).result =
        (versions.find? fun v => v.num == maxVersion) ∨
      ((versions.find? fun v => v.num == maxVersion) = none ∧
       (resolveModel isUnstable maxVersion versions version_num).result =
         versions.head?)) := by
  have hfb : fallbackVersionNum isUnstable maxVersion versions version_num =
      .str version_num := by
    unfold fallbackVersionNum
    simp [hne, hnall]
  have hfind : (versions.find? fun v => versionNumEq v (.str version_num)) = none := by
    rw [List.find?_eq_none]
    intro v hv
    simp [versionNumEq]
    exact hnomatch v hv
  unfold resolveModel
  simp only [hfb, hfind, JsVal.truthy, Option.isNone_none, Bool.and_true]
  refine ⟨by simp [hne], ?_, ?_⟩
  · cases hmax : versions.find? fun v => v.num == maxVersion
    · simp only [hmax]
      cases versions with
      | nil => exact absurd rfl hnonempty
      | cons a l => simp
    · simp [hmax]
  · cases hmax : versions.find? fun v => v.num == maxVersion
    · exact Or.inr ⟨rfl, by simp⟩
    · exact Or.inl (by simp)

/-- C3 witness: requesting the absent version `2.0.0` of a crate whose
only version is `1.0.0` warns and still selects a version. -/
theorem resolve_missing_version_warns_witness :
    (resolveModel demoUnstable "1.0.0" [{ num := "1.0.0", yanked := false }]
      "2.0.0").warned = true :=
  (resolve_missing_version_warns demoUnstable "1.0.0"
    [{ num := "1.0.0", yanked := false }] "2.0.0"
    (by decide) (by decide) (by decide) (by decide)).1

/-- C8: when the selected version exposes a `readme_path`, the crate's
`readme` is set to the fetched text exactly when the response is
successful, and to the explicit null marker on a non-success status or
a network error; the handler is total, so the failure never surfaces as
a resolver error. -/
theorem readme_effect_spec (v : Version) (outcome : FetchOutcome)
    (h : optStrTruthy v.readme_path = true) :
    (∀ t, readmeEffect v outcome = some (some t) ↔ outcome = .success t) ∧
    ((outcome = .httpError ∨ outcome = .networkError) →
      readmeEffect v outcome = some none) := by
  constructor
  · intro t
    rcases outcome with text | _ | _ <;>
      simp [readmeEffect, readmeFetchHandler, h]
  · rintro (h2 | h2) <;> simp [readmeEffect, readmeFetchHandler, h, h2]

/-- C8 witness: a version with a `readme_path` and a non-success HTTP
status yields the explicit null marker. -/
theorem readme_effect_spec_witness :
    readmeEffect { num := "1.0.0", yanked := false, readme_path := some "/readme" }
      .httpError = some none :=
  (readme_effect_spec
    { num := "1.0.0", yanked := false, readme_path := some "/readme" }
    .httpError (by decide)).2 (Or.inl rfl)

/-- C5: a failed `removeOwner` — including the transport-success-but-
payload-error case — leaves the local owner list with exactly the same
members and count, and shows the variant-specific message embedding the
first error detail; instantiated in particular on the `nanomsg` fixture
with detail `nope`. -/
theorem remove_owner_failure_keeps_list (owners : List Owner) (target : Owner)
    (d : String) :
    (removeOwner owners target (.err d)).1 = owners ∧
    (removeOwner owners target (.err d)).2 =
      "Failed to remove the " ++ ownerFailureLabel target ++
        " as crate owner: " ++ d ∧
    removeOwner nanomsgOwners (.user "thehydroimpulse") (.err "nope") =
      (nanomsgOwners,
        "Failed to remove the user thehydroimpulse as crate owner: nope") ∧
    removeOwner nanomsgOwners (.team "org" "blabaere") (.err "nope") =
      (nanomsgOwners,
        "Failed to remove the team org/blabaere as crate owner: nope") :=
  ⟨rfl, rfl, rfl, rfl⟩

/-- C6: a successful `addOwner` never modifies the local owner list and
shows exactly `An invite has been sent to <name>`; instantiated in
particular on the `nanomsg` fixture inviting `iain8`. -/
theorem add_owner_success_invite_only (owners : List Owner) (name : String) :
    (addOwner owners name .ok).1 = owners ∧
    (addOwner owners name .ok).2 = "An invite has been sent to " ++ name ∧
    addOwner nanomsgOwners "iain8" .ok =
      (nanomsgOwners, "An invite has been sent to iain8") :=
  ⟨rfl, rfl, rfl⟩

/-- C7: the claim states that every route-model catch re-throws errors
of unrecognized shape. The team route does not: a structured error
whose details do not include `Not Found` is swallowed (the model hook
returns undefined), not re-thrown. -/
theorem team_catch_swallows :
    teamModelCatch "github:org:foo" ⟨some [⟨"Internal Server Error"⟩]⟩ =
      RouteAction.swallowed ∧
    teamModelCatch "github:org:foo" ⟨some [⟨"Internal Server Error"⟩]⟩ ≠
      RouteAction.rethrow := by
  decide

/-- C7 (amended): a recognized NotFound failure is surfaced as a
user-visible message followed by a redirect in both the team and the
keyword route, and the keyword route re-throws every other error; the
team route instead swallows structured errors lacking a `Not Found`
detail, and raises a TypeError (rather than re-throwing the original
error) when the caught error has no `errors` array. -/
theorem route_catch_dispatch (team_id keyword_id : String) (e : EmberError) :
    keywordModelCatch keyword_id true =
      .notifyAndRedirect ("Keyword '" ++ keyword_id ++ "' does not exist") ∧
    keywordModelCatch keyword_id false = .rethrow ∧
    (e.errors = none → teamModelCatch team_id e = .typeError) ∧
    (∀ errs, e.errors = some errs → (∃ x ∈ errs, x.detail = "Not Found") →
      teamModelCatch team_id e =
        .notifyAndRedirect ("Team '" ++ team_id ++ "' does not exist")) ∧
    (∀ errs, e.errors = some errs → (∀ x ∈ errs, x.detail ≠ "Not Found") →
      teamModelCatch team_id e = .swallowed) := by
  refine ⟨rfl, rfl, ?_, ?_, ?_⟩
  · intro h
    simp [teamModelCatch, h]
  · intro errs h hx
    obtain ⟨x, hmem, hdet⟩ := hx
    simp only [teamModelCatch, h]
    rw [if_pos]
    rw [List.any_eq_true]
    exact ⟨x, hmem, by simp [hdet]⟩
  · intro errs h hx
    simp only [teamModelCatch, h]
    rw [if_neg]
    simp only [List.any_eq_true, not_exists]
    intro x
    simp only [not_and, beq_iff_eq]
    exact hx x

/-- C7 (amended) witness: a caught team-route error carrying the
`Not Found` detail notifies and redirects. -/
theorem route_catch_dispatch_witness :
    teamModelCatch "1" ⟨some [⟨"Not Found"⟩]⟩ =
      RouteAction.notifyAndRedirect "Team '1' does not exist" :=
  (route_catch_dispatch "1" "k" ⟨some [⟨"Not Found"⟩]⟩).2.2.2.1
    [⟨"Not Found"⟩] rfl ⟨⟨"Not Found"⟩, by simp, rfl⟩

end CratesIO
